import Mathlib

/-!
Verification of the shared HTTP client library `internal_services.utility`
(file `src/utility.py`): a low-level transport wrapper `ServiceClient`, a
token-payload normalization helper, and nine per-microservice facades.

The embedding is shallow: Python strings are Lean `String`s, Python
dicts/JSON payloads are `JVal` association lists (Python dicts preserve
insertion order and have unique keys), raised exceptions are `Except PyError`,
and each facade method is embedded in a small monad `NetM` that records the
requests handed to the underlying transport, so that "no network call is made
before a validation error" is a provable statement rather than an assumption.
Logging calls (`logger.info`) carry no semantics and are not modelled.
-/

set_option maxHeartbeats 1000000

namespace InternalServices

/-- JSON-like runtime values, modelling the dynamically-typed Python payloads
(`str`, `dict`, and the other types a caller could pass). A Python `dict` is
an insertion-ordered association list with unique keys; lookups below use the
first match, which coincides with Python lookup on well-formed dicts. -/
inductive JVal where
  | jNull
  | jBool (b : Bool)
  | jNum (n : Int)
  | jStr (s : String)
  | jArr (xs : List JVal)
  | jObj (fields : List (String × JVal))
deriving Repr

/-- Python exceptions raised by `src/utility.py`: `ValueError` and `TypeError`,
with their messages. -/
inductive PyError where
  | valueError (msg : String)
  | typeError (msg : String)
deriving Repr, DecidableEq

/-- The spec's `InvalidConfiguration` error class: the `ValueError` raised by
`ServiceClient.__init__` (src/utility.py line 17). -/
def PyError.isInvalidConfiguration : PyError → Bool
  | .valueError "base_url is required" => true
  | _ => false

/-- The spec's `InvalidArgument` error class: the `TypeError` of
`_normalise_token_payload` (line 57) and the two errors of `login_user`
(lines 326 and 329). -/
def PyError.isInvalidArgument : PyError → Bool
  | .typeError "token must be a str or dict with token information" => true
  | .valueError "Credentials must include email/username and password" => true
  | .typeError "Unsupported credentials type for login_user" => true
  | _ => false

/-- Python `s.startswith(pre)` on strings (character-wise prefix test). -/
def py_starts_with (s pre : String) : Bool :=
  s.data.take pre.data.length == pre.data

/-- Python `s.rstrip("/")`: remove every trailing `'/'` character. -/
def rstrip_slash (s : String) : String :=
  ⟨(s.data.reverse.dropWhile (fun c => c = '/')).reverse⟩

/-- Python truthiness of an optional string (`None` and `""` are falsy). -/
def py_truthy (s : Option String) : Bool :=
  match s with
  | none => false
  | some t => t ≠ ""

/-- Python `a or b` on two optional strings: `b` when `a` is falsy. -/
def py_or_str (a b : Option String) : Option String :=
  if py_truthy a then a else b

/-- `ServiceClient` state after construction (src/utility.py lines 12-20):
the stripped base URL and the timeout. The `httpx.AsyncClient` connection
context is the transport boundary, modelled by the transport oracle passed
to `NetM` below. The timeout is in seconds (the source default `30.0` is the
integral value 30; no claim inspects it). -/
structure ServiceClient where
  base_url : String
  timeout : Nat
deriving Repr, DecidableEq

/-- `ServiceClient.__init__` (lines 15-20): rejects a falsy (empty) base URL
with `ValueError("base_url is required")`, otherwise stores
`base_url.rstrip("/")`. -/
def ServiceClient.init (base_url : String) (timeout : Nat) : Except PyError ServiceClient :=
  if base_url = "" then .error (.valueError "base_url is required")
  else .ok { base_url := rstrip_slash base_url, timeout := timeout }

/-- `ServiceClient._normalise` (lines 22-24): ensure a leading `/`. -/
def ServiceClient.normalise (endpoint : String) : String :=
  if py_starts_with endpoint "/" then endpoint else "/" ++ endpoint

/-- `_normalise_token_payload` (src/utility.py lines 50-57). -/
def normalise_token_payload : JVal → Except PyError JVal
  | .jStr s => .ok (.jObj [("token", .jStr s)])
  | .jObj fields =>
      match fields.lookup "token" with
      | some v => .ok (.jObj [("token", v)])
      | none => .ok (.jObj fields)
  | _ => .error (.typeError "token must be a str or dict with token information")

/-- Is a runtime value a `str` or a `dict` (the accepted token types)? -/
def JVal.is_str_or_dict : JVal → Bool
  | .jStr _ => true
  | .jObj _ => true
  | _ => false

end InternalServices

namespace InternalServices

/-- HTTP verbs dispatched by `ServiceClient.get/post/put/delete`. -/
inductive Verb where
  | GET
  | POST
  | PUT
  | DELETE
deriving Repr, DecidableEq

/-- Transport-level auth credential attached to a request: either a basic-auth
pair (`httpx.BasicAuth(username, password)`) or a caller-supplied pre-built
`httpx.Auth` object, which this layer forwards without inspecting (modelled by
an abstract tag). -/
inductive AuthCred where
  | basic (username password : String)
  | prebuilt (tag : Nat)
deriving Repr, DecidableEq

/-- One request handed to the underlying transport: verb, fully-qualified URL
(`base_url + normalised_path`), optional query parameters, optional JSON body,
optional transport-level auth. -/
structure Request where
  verb : Verb
  url : String
  params : Option (List (String × String))
  jsonBody : Option JVal
  auth : Option AuthCred
deriving Repr

/-- A network action: given a transport oracle (the `httpx.AsyncClient`,
returning an opaque response of type `R` for each request) and the log of
requests sent so far, produce a result or a raised error, together with the
updated log. A Python `raise` aborts the action but the log of requests
already sent is kept, so "fails with no request sent" is observable. -/
def NetM (R α : Type) := (Request → R) → List Request → Except PyError α × List Request

/-- Return a pure value, sending nothing. -/
def NetM.pure (a : α) : NetM R α := fun _ log => (.ok a, log)

/-- Sequence two network actions (second runs only if the first succeeded). -/
def NetM.bind (x : NetM R α) (f : α → NetM R β) : NetM R β := fun t log =>
  match x t log with
  | (.ok a, log1) => f a t log1
  | (.error e, log1) => (.error e, log1)

instance : Monad (NetM R) where
  pure := NetM.pure
  bind := NetM.bind

/-- A Python `raise`: abort with the error, sending nothing. -/
def NetM.throwErr (e : PyError) : NetM R α := fun _ log => (.error e, log)

/-- Run a fallible pure computation (a helper that may `raise`). -/
def NetM.ofExcept (x : Except PyError α) : NetM R α := fun _ log => (x, log)

/-- Hand one request to the transport and return its raw response unchanged. -/
def NetM.send (r : Request) : NetM R R := fun t log => (.ok (t r), log ++ [r])

/-- `ServiceClient.get` (lines 26-29): normalise the endpoint and issue a GET
at `base_url + path`, forwarding the call options unchanged. -/
def ServiceClient.get (c : ServiceClient) (endpoint : String)
    (params : Option (List (String × String))) (jsonBody : Option JVal)
    (auth : Option AuthCred) : NetM R R :=
  NetM.send { verb := .GET, url := c.base_url ++ ServiceClient.normalise endpoint,
              params := params, jsonBody := jsonBody, auth := auth }

/-- `ServiceClient.post` (lines 31-34). -/
def ServiceClient.post (c : ServiceClient) (endpoint : String)
    (params : Option (List (String × String))) (jsonBody : Option JVal)
    (auth : Option AuthCred) : NetM R R :=
  NetM.send { verb := .POST, url := c.base_url ++ ServiceClient.normalise endpoint,
              params := params, jsonBody := jsonBody, auth := auth }

/-- `ServiceClient.put` (lines 36-39). -/
def ServiceClient.put (c : ServiceClient) (endpoint : String)
    (params : Option (List (String × String))) (jsonBody : Option JVal)
    (auth : Option AuthCred) : NetM R R :=
  NetM.send { verb := .PUT, url := c.base_url ++ ServiceClient.normalise endpoint,
              params := params, jsonBody := jsonBody, auth := auth }

/-- `ServiceClient.delete` (lines 41-44). -/
def ServiceClient.delete (c : ServiceClient) (endpoint : String)
    (params : Option (List (String × String))) (jsonBody : Option JVal)
    (auth : Option AuthCred) : NetM R R :=
  NetM.send { verb := .DELETE, url := c.base_url ++ ServiceClient.normalise endpoint,
              params := params, jsonBody := jsonBody, auth := auth }

end InternalServices

namespace InternalServices

/-- The nine service facade classes of `src/utility.py`. -/
inductive FacadeKind where
  | adminManagement
  | alertAndEventProcessing
  | deviceCommand
  | deviceOnboarding
  | deviceTelemetry
  | healthMonitoring
  | notificationMicroservice
  | parkingSlot
  | userAuthentication
deriving Repr, DecidableEq

/-- The environment variable each facade constructor reads for its base URL. -/
def env_var_name : FacadeKind → String
  | .adminManagement => "ADMIN_MANAGEMENT_SERVICE_URL"
  | .alertAndEventProcessing => "ALERT_EVENT_PROCESSING_SERVICE_URL"
  | .deviceCommand => "DEVICE_COMMAND_SERVICE_URL"
  | .deviceOnboarding => "DEVICE_ONBOARDING_SERVICE_URL"
  | .deviceTelemetry => "DEVICE_TELEMETRY_SERVICE_URL"
  | .healthMonitoring => "HEALTH_MONITORING_SERVICE_URL"
  | .notificationMicroservice => "NOTIFICATION_SERVICE_URL"
  | .parkingSlot => "PARKING_SLOT_SERVICE_URL"
  | .userAuthentication => "USER_AUTH_SERVICE_URL"

/-- The hardcoded default base URL of each facade. -/
def default_url : FacadeKind → String
  | .adminManagement => "http://admin-management-service:8000"
  | .alertAndEventProcessing => "http://alert-event-processing-service:8000"
  | .deviceCommand => "http://device-command-service:8000"
  | .deviceOnboarding => "http://device-onboarding-service:8000"
  | .deviceTelemetry => "http://device-telemetry-service:8000"
  | .healthMonitoring => "http://health-monitoring-service:8000"
  | .notificationMicroservice => "http://notification-service:8000"
  | .parkingSlot => "http://parking-slot-service:8000"
  | .userAuthentication => "http://user-auth-service:8000"

/-- Python `os.getenv(var, default)`: the environment value when the variable
is set (even to the empty string), the default otherwise. The environment is
modelled as a lookup function `String → Option String`. -/
def py_getenv (env : String → Option String) (var dflt : String) : String :=
  (env var).getD dflt

/-- The shared facade constructor body
`service_url = base_url or os.getenv(VAR, DEFAULT)` (e.g. src/utility.py
lines 63-67): a truthy (non-`None`, non-empty) explicit `base_url` wins,
otherwise the environment lookup with the hardcoded default. -/
def resolve_service_url (base_url : Option String) (env : String → Option String)
    (var dflt : String) : String :=
  match base_url with
  | some s => if s = "" then py_getenv env var dflt else s
  | none => py_getenv env var dflt

/-- The `__init__` of each facade class (e.g. `AdminManagementService.__init__`,
lines 63-68; `ParkingSlotService.__init__`, lines 235-240): resolve the
service URL, then build the single owned `ServiceClient` (which may raise on
an empty resolved URL). -/
def facade_init (k : FacadeKind) (base_url : Option String)
    (env : String → Option String) : Except PyError ServiceClient :=
  ServiceClient.init (resolve_service_url base_url env (env_var_name k) (default_url k)) 30

end InternalServices

namespace InternalServices

/-- The runtime shapes a caller can pass as `credentials` to
`UserAuthenticationService.login_user` (src/utility.py line 316): a pre-built
`httpx.Auth` instance, an object exposing `username`/`password` attributes, a
mapping, or any other type. -/
inductive Credentials where
  | authObject (tag : Nat)
  | attrObject (username password : String)
  | dict (fields : List (String × String))
  | other
deriving Repr, DecidableEq

/-- Every public facade method of `src/utility.py`, together with its
arguments (the `close` methods perform no request and raise nothing, and are
outside the request/validation claims). Path-interpolated ids are strings, as
`f"..{x}.."` stringifies them. -/
inductive FacadeCall where
  | admin_register_admin (admin_data : JVal)
  | admin_get_all_non_staff (token : JVal)
  | admin_change_account_status (token : JVal) (user_email new_status : String)
  | admin_health_check
  | alert_root
  | alert_health_check
  | command_health_check
  | command_add_command (command_data : JVal)
  | command_get_commands (device_id : String)
  | command_delete_commands (device_id : String)
  | onboarding_health_check
  | onboarding_add_new_device (device_data : JVal)
  | onboarding_get_my_devices (user_id : String)
  | onboarding_get_user_id_by_device_id (device_id : String)
  | telemetry_health_check
  | telemetry_get_latest (device_id : String)
  | telemetry_get_device_status (device_id : String)
  | healthmon_health_check
  | healthmon_get_latest_health (device_id : String)
  | notification_root
  | notification_health_check
  | parking_create_parking_slot (slot_data : JVal) (token : JVal)
  | parking_list_parking_slots (status : Option String)
  | parking_get_parking_slot (slot_id : String)
  | parking_update_parking_slot (slot_id : String) (updates : JVal) (token : JVal)
  | parking_delete_parking_slot (slot_id : String) (token : JVal)
  | parking_assign_parking_slot (slot_id : String) (assignment : JVal) (token : JVal)
  | parking_release_parking_slot (slot_id : String) (token : JVal)
  | userauth_health_check
  | userauth_register_user (user_data : JVal)
  | userauth_login_user (credentials : Credentials)
  | userauth_validate_token (token : JVal)
  | userauth_get_user (user_id : String)
  | userauth_make_admin (user_id : String)
  | userauth_get_all_non_staff (token : JVal)
  | userauth_change_account_status (token : JVal) (target_user_email new_status : String)

/-- The facade class each method belongs to. -/
def facade_of : FacadeCall → FacadeKind
  | .admin_register_admin _ => .adminManagement
  | .admin_get_all_non_staff _ => .adminManagement
  | .admin_change_account_status _ _ _ => .adminManagement
  | .admin_health_check => .adminManagement
  | .alert_root => .alertAndEventProcessing
  | .alert_health_check => .alertAndEventProcessing
  | .command_health_check => .deviceCommand
  | .command_add_command _ => .deviceCommand
  | .command_get_commands _ => .deviceCommand
  | .command_delete_commands _ => .deviceCommand
  | .onboarding_health_check => .deviceOnboarding
  | .onboarding_add_new_device _ => .deviceOnboarding
  | .onboarding_get_my_devices _ => .deviceOnboarding
  | .onboarding_get_user_id_by_device_id _ => .deviceOnboarding
  | .telemetry_health_check => .deviceTelemetry
  | .telemetry_get_latest _ => .deviceTelemetry
  | .telemetry_get_device_status _ => .deviceTelemetry
  | .healthmon_health_check => .healthMonitoring
  | .healthmon_get_latest_health _ => .healthMonitoring
  | .notification_root => .notificationMicroservice
  | .notification_health_check => .notificationMicroservice
  | .parking_create_parking_slot _ _ => .parkingSlot
  | .parking_list_parking_slots _ => .parkingSlot
  | .parking_get_parking_slot _ => .parkingSlot
  | .parking_update_parking_slot _ _ _ => .parkingSlot
  | .parking_delete_parking_slot _ _ => .parkingSlot
  | .parking_assign_parking_slot _ _ _ => .parkingSlot
  | .parking_release_parking_slot _ _ => .parkingSlot
  | .userauth_health_check => .userAuthentication
  | .userauth_register_user _ => .userAuthentication
  | .userauth_login_user _ => .userAuthentication
  | .userauth_validate_token _ => .userAuthentication
  | .userauth_get_user _ => .userAuthentication
  | .userauth_make_admin _ => .userAuthentication
  | .userauth_get_all_non_staff _ => .userAuthentication
  | .userauth_change_account_status _ _ _ => .userAuthentication

/-- The Python method name of each call. -/
def method_name : FacadeCall → String
  | .admin_register_admin _ => "register_admin"
  | .admin_get_all_non_staff _ => "get_all_non_staff"
  | .admin_change_account_status _ _ _ => "change_account_status"
  | .admin_health_check => "health_check"
  | .alert_root => "root"
  | .alert_health_check => "health_check"
  | .command_health_check => "health_check"
  | .command_add_command _ => "add_command"
  | .command_get_commands _ => "get_commands"
  | .command_delete_commands _ => "delete_commands"
  | .onboarding_health_check => "health_check"
  | .onboarding_add_new_device _ => "add_new_device"
  | .onboarding_get_my_devices _ => "get_my_devices"
  | .onboarding_get_user_id_by_device_id _ => "get_user_id_by_device_id"
  | .telemetry_health_check => "health_check"
  | .telemetry_get_latest _ => "get_latest"
  | .telemetry_get_device_status _ => "get_device_status"
  | .healthmon_health_check => "health_check"
  | .healthmon_get_latest_health _ => "get_latest_health"
  | .notification_root => "root"
  | .notification_health_check => "health_check"
  | .parking_create_parking_slot _ _ => "create_parking_slot"
  | .parking_list_parking_slots _ => "list_parking_slots"
  | .parking_get_parking_slot _ => "get_parking_slot"
  | .parking_update_parking_slot _ _ _ => "update_parking_slot"
  | .parking_delete_parking_slot _ _ => "delete_parking_slot"
  | .parking_assign_parking_slot _ _ _ => "assign_parking_slot"
  | .parking_release_parking_slot _ _ => "release_parking_slot"
  | .userauth_health_check => "health_check"
  | .userauth_register_user _ => "register_user"
  | .userauth_login_user _ => "login_user"
  | .userauth_validate_token _ => "validate_token"
  | .userauth_get_user _ => "get_user"
  | .userauth_make_admin _ => "make_admin"
  | .userauth_get_all_non_staff _ => "get_all_non_staff"
  | .userauth_change_account_status _ _ _ => "change_account_status"

/-- The token argument a call forwards through `_normalise_token_payload`,
when it has one. -/
def token_arg : FacadeCall → Option JVal
  | .admin_get_all_non_staff tok => some tok
  | .admin_change_account_status tok _ _ => some tok
  | .parking_create_parking_slot _ tok => some tok
  | .parking_update_parking_slot _ _ tok => some tok
  | .parking_delete_parking_slot _ tok => some tok
  | .parking_assign_parking_slot _ _ tok => some tok
  | .parking_release_parking_slot _ tok => some tok
  | .userauth_validate_token tok => some tok
  | .userauth_get_all_non_staff tok => some tok
  | .userauth_change_account_status tok _ _ => some tok
  | _ => none

end InternalServices

namespace InternalServices

/-- `UserAuthenticationService.login_user` credential resolution
(src/utility.py lines 317-329): a pre-built `httpx.Auth` is used as-is; an
object with `username`/`password` attributes becomes `BasicAuth`; a mapping
resolves `email or username` and `password` with Python truthiness and raises
`ValueError` when either is falsy; any other type raises `TypeError`. -/
def resolve_login_auth : Credentials → Except PyError AuthCred
  | .authObject tag => .ok (.prebuilt tag)
  | .attrObject u p => .ok (.basic u p)
  | .dict fields =>
      let email := py_or_str (fields.lookup "email") (fields.lookup "username")
      let password := fields.lookup "password"
      if py_truthy email && py_truthy password then
        .ok (.basic (email.getD "") (password.getD ""))
      else
        .error (.valueError "Credentials must include email/username and password")
  | .other => .error (.typeError "Unsupported credentials type for login_user")

/-- The body of each facade method (src/utility.py lines 70-357), run against
the facade's owned `ServiceClient` `c`: validation helpers may raise, then
the single transport call is issued and its raw response returned unchanged. -/
def run_method (c : ServiceClient) : FacadeCall → NetM R R
  | .admin_register_admin admin_data =>
      ServiceClient.post c "/register_admin" none (some admin_data) none
  | .admin_get_all_non_staff token => do
      let payload ← NetM.ofExcept (normalise_token_payload token)
      ServiceClient.post c "/get_all_non_staff" none (some payload) none
  | .admin_change_account_status token user_email new_status => do
      let payload ← NetM.ofExcept (normalise_token_payload token)
      ServiceClient.post c "/change_account_status"
        (some [("user_email", user_email), ("new_status", new_status)]) (some payload) none
  | .admin_health_check =>
      ServiceClient.get c "/health" none none none
  | .alert_root =>
      ServiceClient.get c "/" none none none
  | .alert_health_check =>
      ServiceClient.get c "/health" none none none
  | .command_health_check =>
      ServiceClient.get c "/health" none none none
  | .command_add_command command_data =>
      ServiceClient.post c "/add_command" none (some command_data) none
  | .command_get_commands device_id =>
      ServiceClient.get c ("/commands/" ++ device_id) none none none
  | .command_delete_commands device_id =>
      ServiceClient.delete c ("/commands/delete/" ++ device_id) none none none
  | .onboarding_health_check =>
      ServiceClient.get c "/health" none none none
  | .onboarding_add_new_device device_data =>
      ServiceClient.post c "/add_new_device" none (some device_data) none
  | .onboarding_get_my_devices user_id =>
      ServiceClient.get c ("/get_my_devices/" ++ user_id) none none none
  | .onboarding_get_user_id_by_device_id device_id =>
      ServiceClient.get c ("/get_user_id_by_device_id/" ++ device_id) none none none
  | .telemetry_health_check =>
      ServiceClient.get c "/health" none none none
  | .telemetry_get_latest device_id =>
      ServiceClient.get c ("/latest/" ++ device_id) none none none
  | .telemetry_get_device_status device_id =>
      ServiceClient.get c ("/device/status/" ++ device_id) none none none
  | .healthmon_health_check =>
      ServiceClient.get c "/health" none none none
  | .healthmon_get_latest_health device_id =>
      ServiceClient.get c ("/" ++ device_id ++ "/latest") none none none
  | .notification_root =>
      ServiceClient.get c "/" none none none
  | .notification_health_check =>
      ServiceClient.get c "/health" none none none
  | .parking_create_parking_slot slot_data token => do
      let payload ← NetM.ofExcept (normalise_token_payload token)
      ServiceClient.post c "/parking_slots" none
        (some (.jObj [("payload", slot_data), ("authorization", payload)])) none
  | .parking_list_parking_slots status =>
      ServiceClient.get c "/parking_slots"
        (match status with
         | some s => if s = "" then none else some [("status", s)]
         | none => none) none none
  | .parking_get_parking_slot slot_id =>
      ServiceClient.get c ("/parking_slots/" ++ slot_id) none none none
  | .parking_update_parking_slot slot_id updates token => do
      let payload ← NetM.ofExcept (normalise_token_payload token)
      ServiceClient.put c ("/parking_slots/" ++ slot_id) none
        (some (.jObj [("payload", updates), ("authorization", payload)])) none
  | .parking_delete_parking_slot slot_id token => do
      let payload ← NetM.ofExcept (normalise_token_payload token)
      ServiceClient.delete c ("/parking_slots/" ++ slot_id) none
        (some (.jObj [("authorization", payload)])) none
  | .parking_assign_parking_slot slot_id assignment token => do
      let payload ← NetM.ofExcept (normalise_token_payload token)
      ServiceClient.post c ("/parking_slots/" ++ slot_id ++ "/assign") none
        (some (.jObj [("body", assignment), ("authorization", payload)])) none
  | .parking_release_parking_slot slot_id token => do
      let payload ← NetM.ofExcept (normalise_token_payload token)
      ServiceClient.post c ("/parking_slots/" ++ slot_id ++ "/release") none
        (some (.jObj [("authorization", payload)])) none
  | .userauth_health_check =>
      ServiceClient.get c "/health" none none none
  | .userauth_register_user user_data =>
      ServiceClient.post c "/register" none (some user_data) none
  | .userauth_login_user credentials => do
      let auth_obj ← NetM.ofExcept (resolve_login_auth credentials)
      ServiceClient.post c "/login" none none (some auth_obj)
  | .userauth_validate_token token => do
      let payload ← NetM.ofExcept (normalise_token_payload token)
      ServiceClient.post c "/validate" none (some payload) none
  | .userauth_get_user user_id =>
      ServiceClient.get c ("/user/" ++ user_id) none none none
  | .userauth_make_admin user_id =>
      ServiceClient.post c ("/user/" ++ user_id ++ "/make_admin") none none none
  | .userauth_get_all_non_staff token => do
      let payload ← NetM.ofExcept (normalise_token_payload token)
      ServiceClient.post c "/users/non_staff" none (some payload) none
  | .userauth_change_account_status token target_user_email new_status => do
      let payload ← NetM.ofExcept (normalise_token_payload token)
      ServiceClient.post c "/change_account_status"
        (some [("target_user_email", target_user_email), ("new_status", new_status)])
        (some payload) none

end InternalServices

namespace InternalServices

/-- Any error raised by `_normalise_token_payload` is its `TypeError`. -/
lemma normalise_token_payload_error {tok : JVal} {e : PyError}
    (h : normalise_token_payload tok = .error e) :
    e = .typeError "token must be a str or dict with token information" := by
  cases tok with
  | jObj fields =>
      rcases hl : fields.lookup "token" with _ | v <;>
        simp [normalise_token_payload, hl] at h
  | jStr s => simp [normalise_token_payload] at h
  | jNull => simp [normalise_token_payload] at h; exact h.symm
  | jBool b => simp [normalise_token_payload] at h; exact h.symm
  | jNum n => simp [normalise_token_payload] at h; exact h.symm
  | jArr xs => simp [normalise_token_payload] at h; exact h.symm

/-- A token that is neither a `str` nor a `dict` is rejected with the
`TypeError` of src/utility.py line 57. -/
lemma normalise_token_payload_bad {tok : JVal} (h : tok.is_str_or_dict = false) :
    normalise_token_payload tok =
      .error (.typeError "token must be a str or dict with token information") := by
  cases tok <;> simp_all [JVal.is_str_or_dict, normalise_token_payload]

/-- Any error raised by the credential resolution of `login_user` belongs to
the spec's `InvalidArgument` class. -/
lemma resolve_login_auth_error {cred : Credentials} {e : PyError}
    (h : resolve_login_auth cred = .error e) : e.isInvalidArgument = true := by
  cases cred with
  | authObject tag => simp [resolve_login_auth] at h
  | attrObject u p => simp [resolve_login_auth] at h
  | dict fields =>
      simp only [resolve_login_auth] at h
      split at h
      · cases h
      · simp only [Except.error.injEq] at h
        subst h
        decide
  | other =>
      simp only [resolve_login_auth, Except.error.injEq] at h
      subst h
      decide

/-- A credentials mapping whose resolved email-or-username or password is
falsy is rejected with the `ValueError` of src/utility.py line 326. -/
lemma resolve_login_auth_dict_error {fields : List (String × String)}
    (h : (py_truthy (py_or_str (fields.lookup "email") (fields.lookup "username"))
          && py_truthy (fields.lookup "password")) = false) :
    resolve_login_auth (.dict fields) =
      .error (.valueError "Credentials must include email/username and password") := by
  simp [resolve_login_auth, h]

end InternalServices

namespace InternalServices

/-- Outcome of every facade method run on an empty send log: either a
validation error of the spec's `InvalidArgument` class was raised with no
request sent, or exactly one request was sent and its raw transport response
is returned unchanged. -/
lemma run_method_outcome (R : Type) (c : ServiceClient) (t : Request → R)
    (call : FacadeCall) :
    (∃ e, run_method c call t [] = (.error e, []) ∧ e.isInvalidArgument = true) ∨
    (∃ r, run_method c call t [] = (.ok (t r), [r])) := by
  cases call with
  | admin_register_admin d => exact Or.inr ⟨_, rfl⟩
  | admin_get_all_non_staff tok =>
      rcases htok : normalise_token_payload tok with e | payload
      · exact Or.inl ⟨e, by simp [run_method, NetM.bind, NetM.ofExcept, Bind.bind, htok],
          by rw [normalise_token_payload_error htok]; decide⟩
      · refine Or.inr ?_
        simp only [run_method, NetM.bind, NetM.ofExcept, Bind.bind, htok, ServiceClient.post,
          ServiceClient.put, ServiceClient.delete, ServiceClient.get, NetM.send, List.nil_append]
        exact ⟨_, rfl⟩
  | admin_change_account_status tok a b =>
      rcases htok : normalise_token_payload tok with e | payload
      · exact Or.inl ⟨e, by simp [run_method, NetM.bind, NetM.ofExcept, Bind.bind, htok],
          by rw [normalise_token_payload_error htok]; decide⟩
      · refine Or.inr ?_
        simp only [run_method, NetM.bind, NetM.ofExcept, Bind.bind, htok, ServiceClient.post,
          ServiceClient.put, ServiceClient.delete, ServiceClient.get, NetM.send, List.nil_append]
        exact ⟨_, rfl⟩
  | admin_health_check => exact Or.inr ⟨_, rfl⟩
  | alert_root => exact Or.inr ⟨_, rfl⟩
  | alert_health_check => exact Or.inr ⟨_, rfl⟩
  | command_health_check => exact Or.inr ⟨_, rfl⟩
  | command_add_command d => exact Or.inr ⟨_, rfl⟩
  | command_get_commands i => exact Or.inr ⟨_, rfl⟩
  | command_delete_commands i => exact Or.inr ⟨_, rfl⟩
  | onboarding_health_check => exact Or.inr ⟨_, rfl⟩
  | onboarding_add_new_device d => exact Or.inr ⟨_, rfl⟩
  | onboarding_get_my_devices i => exact Or.inr ⟨_, rfl⟩
  | onboarding_get_user_id_by_device_id i => exact Or.inr ⟨_, rfl⟩
  | telemetry_health_check => exact Or.inr ⟨_, rfl⟩
  | telemetry_get_latest i => exact Or.inr ⟨_, rfl⟩
  | telemetry_get_device_status i => exact Or.inr ⟨_, rfl⟩
  | healthmon_health_check => exact Or.inr ⟨_, rfl⟩
  | healthmon_get_latest_health i => exact Or.inr ⟨_, rfl⟩
  | notification_root => exact Or.inr ⟨_, rfl⟩
  | notification_health_check => exact Or.inr ⟨_, rfl⟩
  | parking_create_parking_slot d tok =>
      rcases htok : normalise_token_payload tok with e | payload
      · exact Or.inl ⟨e, by simp [run_method, NetM.bind, NetM.ofExcept, Bind.bind, htok],
          by rw [normalise_token_payload_error htok]; decide⟩
      · refine Or.inr ?_
        simp only [run_method, NetM.bind, NetM.ofExcept, Bind.bind, htok, ServiceClient.post,
          ServiceClient.put, ServiceClient.delete, ServiceClient.get, NetM.send, List.nil_append]
        exact ⟨_, rfl⟩
  | parking_list_parking_slots st => exact Or.inr ⟨_, rfl⟩
  | parking_get_parking_slot i => exact Or.inr ⟨_, rfl⟩
  | parking_update_parking_slot i d tok =>
      rcases htok : normalise_token_payload tok with e | payload
      · exact Or.inl ⟨e, by simp [run_method, NetM.bind, NetM.ofExcept, Bind.bind, htok],
          by rw [normalise_token_payload_error htok]; decide⟩
      · refine Or.inr ?_
        simp only [run_method, NetM.bind, NetM.ofExcept, Bind.bind, htok, ServiceClient.post,
          ServiceClient.put, ServiceClient.delete, ServiceClient.get, NetM.send, List.nil_append]
        exact ⟨_, rfl⟩
  | parking_delete_parking_slot i tok =>
      rcases htok : normalise_token_payload tok with e | payload
      · exact Or.inl ⟨e, by simp [run_method, NetM.bind, NetM.ofExcept, Bind.bind, htok],
          by rw [normalise_token_payload_error htok]; decide⟩
      · refine Or.inr ?_
        simp only [run_method, NetM.bind, NetM.ofExcept, Bind.bind, htok, ServiceClient.post,
          ServiceClient.put, ServiceClient.delete, ServiceClient.get, NetM.send, List.nil_append]
        exact ⟨_, rfl⟩
  | parking_assign_parking_slot i d tok =>
      rcases htok : normalise_token_payload tok with e | payload
      · exact Or.inl ⟨e, by simp [run_method, NetM.bind, NetM.ofExcept, Bind.bind, htok],
          by rw [normalise_token_payload_error htok]; decide⟩
      · refine Or.inr ?_
        simp only [run_method, NetM.bind, NetM.ofExcept, Bind.bind, htok, ServiceClient.post,
          ServiceClient.put, ServiceClient.delete, ServiceClient.get, NetM.send, List.nil_append]
        exact ⟨_, rfl⟩
  | parking_release_parking_slot i tok =>
      rcases htok : normalise_token_payload tok with e | payload
      · exact Or.inl ⟨e, by simp [run_method, NetM.bind, NetM.ofExcept, Bind.bind, htok],
          by rw [normalise_token_payload_error htok]; decide⟩
      · refine Or.inr ?_
        simp only [run_method, NetM.bind, NetM.ofExcept, Bind.bind, htok, ServiceClient.post,
          ServiceClient.put, ServiceClient.delete, ServiceClient.get, NetM.send, List.nil_append]
        exact ⟨_, rfl⟩
  | userauth_health_check => exact Or.inr ⟨_, rfl⟩
  | userauth_register_user d => exact Or.inr ⟨_, rfl⟩
  | userauth_login_user cred =>
      rcases htok : resolve_login_auth cred with e | auth_obj
      · exact Or.inl ⟨e, by simp [run_method, NetM.bind, NetM.ofExcept, Bind.bind, htok],
          resolve_login_auth_error htok⟩
      · refine Or.inr ?_
        simp only [run_method, NetM.bind, NetM.ofExcept, Bind.bind, htok, ServiceClient.post,
          ServiceClient.put, ServiceClient.delete, ServiceClient.get, NetM.send, List.nil_append]
        exact ⟨_, rfl⟩
  | userauth_validate_token tok =>
      rcases htok : normalise_token_payload tok with e | payload
      · exact Or.inl ⟨e, by simp [run_method, NetM.bind, NetM.ofExcept, Bind.bind, htok],
          by rw [normalise_token_payload_error htok]; decide⟩
      · refine Or.inr ?_
        simp only [run_method, NetM.bind, NetM.ofExcept, Bind.bind, htok, ServiceClient.post,
          ServiceClient.put, ServiceClient.delete, ServiceClient.get, NetM.send, List.nil_append]
        exact ⟨_, rfl⟩
  | userauth_get_user i => exact Or.inr ⟨_, rfl⟩
  | userauth_make_admin i => exact Or.inr ⟨_, rfl⟩
  | userauth_get_all_non_staff tok =>
      rcases htok : normalise_token_payload tok with e | payload
      · exact Or.inl ⟨e, by simp [run_method, NetM.bind, NetM.ofExcept, Bind.bind, htok],
          by rw [normalise_token_payload_error htok]; decide⟩
      · refine Or.inr ?_
        simp only [run_method, NetM.bind, NetM.ofExcept, Bind.bind, htok, ServiceClient.post,
          ServiceClient.put, ServiceClient.delete, ServiceClient.get, NetM.send, List.nil_append]
        exact ⟨_, rfl⟩
  | userauth_change_account_status tok a b =>
      rcases htok : normalise_token_payload tok with e | payload
      · exact Or.inl ⟨e, by simp [run_method, NetM.bind, NetM.ofExcept, Bind.bind, htok],
          by rw [normalise_token_payload_error htok]; decide⟩
      · refine Or.inr ?_
        simp only [run_method, NetM.bind, NetM.ofExcept, Bind.bind, htok, ServiceClient.post,
          ServiceClient.put, ServiceClient.delete, ServiceClient.get, NetM.send, List.nil_append]
        exact ⟨_, rfl⟩

end InternalServices

namespace InternalServices

/-- The character data of a string concatenation. -/
lemma string_data_append (a b : String) : (a ++ b).data = a.data ++ b.data := by
  cases a
  cases b
  rfl

/-- Every concatenation `a ++ b` passes the Python `startswith(a)` test. -/
lemma py_starts_with_append (a b : String) : py_starts_with (a ++ b) a = true := by
  simp [py_starts_with, string_data_append, List.take_left]

/-- A string starting (character-wise) with `"/"` still does after appending. -/
lemma py_starts_with_slash_append {p : String} (s : String)
    (h : py_starts_with p "/" = true) : py_starts_with (p ++ s) "/" = true := by
  have hp : p.data.take 1 = ['/'] := by simpa [py_starts_with] using h
  have hd : (p ++ s).data = p.data ++ s.data := string_data_append p s
  cases hq : p.data with
  | nil => rw [hq] at hp; cases hp
  | cons a l =>
      rw [hq] at hp
      simp at hp
      simp [py_starts_with, hd, hq, hp]

/-- `_normalise` leaves a `/`-prefixed concatenation unchanged. -/
lemma normalise_slash_append (p s : String) (h : py_starts_with p "/" = true) :
    ServiceClient.normalise (p ++ s) = p ++ s := by
  simp [ServiceClient.normalise, py_starts_with_slash_append s h]

end InternalServices

namespace InternalServices

/-- Shape of every request a facade method hands to the transport: its URL is
the client's stored base URL followed by a normalised path, and it carries no
transport-level auth unless the call is `login_user`. -/
lemma run_method_sent (R : Type) (c : ServiceClient) (t : Request → R)
    (call : FacadeCall) :
    ∀ r ∈ (run_method c call t []).2,
      (∃ p, r.url = c.base_url ++ ServiceClient.normalise p) ∧
      (r.auth = none ∨ ∃ cred, call = FacadeCall.userauth_login_user cred) := by
  cases call with
  | admin_register_admin d =>
      intro r hr
      simp only [run_method, ServiceClient.get, ServiceClient.post, ServiceClient.put,
        ServiceClient.delete, NetM.send, NetM.bind, NetM.ofExcept, Bind.bind,
        List.nil_append, List.mem_singleton] at hr
      subst hr
      exact ⟨⟨_, rfl⟩, Or.inl rfl⟩
  | admin_get_all_non_staff tok =>
      intro r hr
      rcases htok : normalise_token_payload tok with e | payload
      · simp [run_method, ServiceClient.get, ServiceClient.post, ServiceClient.put,
        ServiceClient.delete, NetM.send, NetM.bind, NetM.ofExcept, Bind.bind,
        List.nil_append, List.mem_singleton, htok] at hr
      · simp only [run_method, ServiceClient.get, ServiceClient.post, ServiceClient.put,
        ServiceClient.delete, NetM.send, NetM.bind, NetM.ofExcept, Bind.bind,
        List.nil_append, List.mem_singleton, htok] at hr
        subst hr
        exact ⟨⟨_, rfl⟩, Or.inl rfl⟩
  | admin_change_account_status tok a b =>
      intro r hr
      rcases htok : normalise_token_payload tok with e | payload
      · simp [run_method, ServiceClient.get, ServiceClient.post, ServiceClient.put,
        ServiceClient.delete, NetM.send, NetM.bind, NetM.ofExcept, Bind.bind,
        List.nil_append, List.mem_singleton, htok] at hr
      · simp only [run_method, ServiceClient.get, ServiceClient.post, ServiceClient.put,
        ServiceClient.delete, NetM.send, NetM.bind, NetM.ofExcept, Bind.bind,
        List.nil_append, List.mem_singleton, htok] at hr
        subst hr
        exact ⟨⟨_, rfl⟩, Or.inl rfl⟩
  | admin_health_check =>
      intro r hr
      simp only [run_method, ServiceClient.get, ServiceClient.post, ServiceClient.put,
        ServiceClient.delete, NetM.send, NetM.bind, NetM.ofExcept, Bind.bind,
        List.nil_append, List.mem_singleton] at hr
      subst hr
      exact ⟨⟨_, rfl⟩, Or.inl rfl⟩
  | alert_root =>
      intro r hr
      simp only [run_method, ServiceClient.get, ServiceClient.post, ServiceClient.put,
        ServiceClient.delete, NetM.send, NetM.bind, NetM.ofExcept, Bind.bind,
        List.nil_append, List.mem_singleton] at hr
      subst hr
      exact ⟨⟨_, rfl⟩, Or.inl rfl⟩
  | alert_health_check =>
      intro r hr
      simp only [run_method, ServiceClient.get, ServiceClient.post, ServiceClient.put,
        ServiceClient.delete, NetM.send, NetM.bind, NetM.ofExcept, Bind.bind,
        List.nil_append, List.mem_singleton] at hr
      subst hr
      exact ⟨⟨_, rfl⟩, Or.inl rfl⟩
  | command_health_check =>
      intro r hr
      simp only [run_method, ServiceClient.get, ServiceClient.post, ServiceClient.put,
        ServiceClient.delete, NetM.send, NetM.bind, NetM.ofExcept, Bind.bind,
        List.nil_append, List.mem_singleton] at hr
      subst hr
      exact ⟨⟨_, rfl⟩, Or.inl rfl⟩
  | command_add_command d =>
      intro r hr
      simp only [run_method, ServiceClient.get, ServiceClient.post, ServiceClient.put,
        ServiceClient.delete, NetM.send, NetM.bind, NetM.ofExcept, Bind.bind,
        List.nil_append, List.mem_singleton] at hr
      subst hr
      exact ⟨⟨_, rfl⟩, Or.inl rfl⟩
  | command_get_commands i =>
      intro r hr
      simp only [run_method, ServiceClient.get, ServiceClient.post, ServiceClient.put,
        ServiceClient.delete, NetM.send, NetM.bind, NetM.ofExcept, Bind.bind,
        List.nil_append, List.mem_singleton] at hr
      subst hr
      exact ⟨⟨_, rfl⟩, Or.inl rfl⟩
  | command_delete_commands i =>
      intro r hr
      simp only [run_method, ServiceClient.get, ServiceClient.post, ServiceClient.put,
        ServiceClient.delete, NetM.send, NetM.bind, NetM.ofExcept, Bind.bind,
        List.nil_append, List.mem_singleton] at hr
      subst hr
      exact ⟨⟨_, rfl⟩, Or.inl rfl⟩
  | onboarding_health_check =>
      intro r hr
      simp only [run_method, ServiceClient.get, ServiceClient.post, ServiceClient.put,
        ServiceClient.delete, NetM.send, NetM.bind, NetM.ofExcept, Bind.bind,
        List.nil_append, List.mem_singleton] at hr
      subst hr
      exact ⟨⟨_, rfl⟩, Or.inl rfl⟩
  | onboarding_add_new_device d =>
      intro r hr
      simp only [run_method, ServiceClient.get, ServiceClient.post, ServiceClient.put,
        ServiceClient.delete, NetM.send, NetM.bind, NetM.ofExcept, Bind.bind,
        List.nil_append, List.mem_singleton] at hr
      subst hr
      exact ⟨⟨_, rfl⟩, Or.inl rfl⟩
  | onboarding_get_my_devices i =>
      intro r hr
      simp only [run_method, ServiceClient.get, ServiceClient.post, ServiceClient.put,
        ServiceClient.delete, NetM.send, NetM.bind, NetM.ofExcept, Bind.bind,
        List.nil_append, List.mem_singleton] at hr
      subst hr
      exact ⟨⟨_, rfl⟩, Or.inl rfl⟩
  | onboarding_get_user_id_by_device_id i =>
      intro r hr
      simp only [run_method, ServiceClient.get, ServiceClient.post, ServiceClient.put,
        ServiceClient.delete, NetM.send, NetM.bind, NetM.ofExcept, Bind.bind,
        List.nil_append, List.mem_singleton] at hr
      subst hr
      exact ⟨⟨_, rfl⟩, Or.inl rfl⟩
  | telemetry_health_check =>
      intro r hr
      simp only [run_method, ServiceClient.get, ServiceClient.post, ServiceClient.put,
        ServiceClient.delete, NetM.send, NetM.bind, NetM.ofExcept, Bind.bind,
        List.nil_append, List.mem_singleton] at hr
      subst hr
      exact ⟨⟨_, rfl⟩, Or.inl rfl⟩
  | telemetry_get_latest i =>
      intro r hr
      simp only [run_method, ServiceClient.get, ServiceClient.post, ServiceClient.put,
        ServiceClient.delete, NetM.send, NetM.bind, NetM.ofExcept, Bind.bind,
        List.nil_append, List.mem_singleton] at hr
      subst hr
      exact ⟨⟨_, rfl⟩, Or.inl rfl⟩
  | telemetry_get_device_status i =>
      intro r hr
      simp only [run_method, ServiceClient.get, ServiceClient.post, ServiceClient.put,
        ServiceClient.delete, NetM.send, NetM.bind, NetM.ofExcept, Bind.bind,
        List.nil_append, List.mem_singleton] at hr
      subst hr
      exact ⟨⟨_, rfl⟩, Or.inl rfl⟩
  | healthmon_health_check =>
      intro r hr
      simp only [run_method, ServiceClient.get, ServiceClient.post, ServiceClient.put,
        ServiceClient.delete, NetM.send, NetM.bind, NetM.ofExcept, Bind.bind,
        List.nil_append, List.mem_singleton] at hr
      subst hr
      exact ⟨⟨_, rfl⟩, Or.inl rfl⟩
  | healthmon_get_latest_health i =>
      intro r hr
      simp only [run_method, ServiceClient.get, ServiceClient.post, ServiceClient.put,
        ServiceClient.delete, NetM.send, NetM.bind, NetM.ofExcept, Bind.bind,
        List.nil_append, List.mem_singleton] at hr
      subst hr
      exact ⟨⟨_, rfl⟩, Or.inl rfl⟩
  | notification_root =>
      intro r hr
      simp only [run_method, ServiceClient.get, ServiceClient.post, ServiceClient.put,
        ServiceClient.delete, NetM.send, NetM.bind, NetM.ofExcept, Bind.bind,
        List.nil_append, List.mem_singleton] at hr
      subst hr
      exact ⟨⟨_, rfl⟩, Or.inl rfl⟩
  | notification_health_check =>
      intro r hr
      simp only [run_method, ServiceClient.get, ServiceClient.post, ServiceClient.put,
        ServiceClient.delete, NetM.send, NetM.bind, NetM.ofExcept, Bind.bind,
        List.nil_append, List.mem_singleton] at hr
      subst hr
      exact ⟨⟨_, rfl⟩, Or.inl rfl⟩
  | parking_create_parking_slot d tok =>
      intro r hr
      rcases htok : normalise_token_payload tok with e | payload
      · simp [run_method, ServiceClient.get, ServiceClient.post, ServiceClient.put,
        ServiceClient.delete, NetM.send, NetM.bind, NetM.ofExcept, Bind.bind,
        List.nil_append, List.mem_singleton, htok] at hr
      · simp only [run_method, ServiceClient.get, ServiceClient.post, ServiceClient.put,
        ServiceClient.delete, NetM.send, NetM.bind, NetM.ofExcept, Bind.bind,
        List.nil_append, List.mem_singleton, htok] at hr
        subst hr
        exact ⟨⟨_, rfl⟩, Or.inl rfl⟩
  | parking_list_parking_slots st =>
      intro r hr
      simp only [run_method, ServiceClient.get, ServiceClient.post, ServiceClient.put,
        ServiceClient.delete, NetM.send, NetM.bind, NetM.ofExcept, Bind.bind,
        List.nil_append, List.mem_singleton] at hr
      subst hr
      exact ⟨⟨_, rfl⟩, Or.inl rfl⟩
  | parking_get_parking_slot i =>
      intro r hr
      simp only [run_method, ServiceClient.get, ServiceClient.post, ServiceClient.put,
        ServiceClient.delete, NetM.send, NetM.bind, NetM.ofExcept, Bind.bind,
        List.nil_append, List.mem_singleton] at hr
      subst hr
      exact ⟨⟨_, rfl⟩, Or.inl rfl⟩
  | parking_update_parking_slot i d tok =>
      intro r hr
      rcases htok : normalise_token_payload tok with e | payload
      · simp [run_method, ServiceClient.get, ServiceClient.post, ServiceClient.put,
        ServiceClient.delete, NetM.send, NetM.bind, NetM.ofExcept, Bind.bind,
        List.nil_append, List.mem_singleton, htok] at hr
      · simp only [run_method, ServiceClient.get, ServiceClient.post, ServiceClient.put,
        ServiceClient.delete, NetM.send, NetM.bind, NetM.ofExcept, Bind.bind,
        List.nil_append, List.mem_singleton, htok] at hr
        subst hr
        exact ⟨⟨_, rfl⟩, Or.inl rfl⟩
  | parking_delete_parking_slot i tok =>
      intro r hr
      rcases htok : normalise_token_payload tok with e | payload
      · simp [run_method, ServiceClient.get, ServiceClient.post, ServiceClient.put,
        ServiceClient.delete, NetM.send, NetM.bind, NetM.ofExcept, Bind.bind,
        List.nil_append, List.mem_singleton, htok] at hr
      · simp only [run_method, ServiceClient.get, ServiceClient.post, ServiceClient.put,
        ServiceClient.delete, NetM.send, NetM.bind, NetM.ofExcept, Bind.bind,
        List.nil_append, List.mem_singleton, htok] at hr
        subst hr
        exact ⟨⟨_, rfl⟩, Or.inl rfl⟩
  | parking_assign_parking_slot i d tok =>
      intro r hr
      rcases htok : normalise_token_payload tok with e | payload
      · simp [run_method, ServiceClient.get, ServiceClient.post, ServiceClient.put,
        ServiceClient.delete, NetM.send, NetM.bind, NetM.ofExcept, Bind.bind,
        List.nil_append, List.mem_singleton, htok] at hr
      · simp only [run_method, ServiceClient.get, ServiceClient.post, ServiceClient.put,
        ServiceClient.delete, NetM.send, NetM.bind, NetM.ofExcept, Bind.bind,
        List.nil_append, List.mem_singleton, htok] at hr
        subst hr
        exact ⟨⟨_, rfl⟩, Or.inl rfl⟩
  | parking_release_parking_slot i tok =>
      intro r hr
      rcases htok : normalise_token_payload tok with e | payload
      · simp [run_method, ServiceClient.get, ServiceClient.post, ServiceClient.put,
        ServiceClient.delete, NetM.send, NetM.bind, NetM.ofExcept, Bind.bind,
        List.nil_append, List.mem_singleton, htok] at hr
      · simp only [run_method, ServiceClient.get, ServiceClient.post, ServiceClient.put,
        ServiceClient.delete, NetM.send, NetM.bind, NetM.ofExcept, Bind.bind,
        List.nil_append, List.mem_singleton, htok] at hr
        subst hr
        exact ⟨⟨_, rfl⟩, Or.inl rfl⟩
  | userauth_health_check =>
      intro r hr
      simp only [run_method, ServiceClient.get, ServiceClient.post, ServiceClient.put,
        ServiceClient.delete, NetM.send, NetM.bind, NetM.ofExcept, Bind.bind,
        List.nil_append, List.mem_singleton] at hr
      subst hr
      exact ⟨⟨_, rfl⟩, Or.inl rfl⟩
  | userauth_register_user d =>
      intro r hr
      simp only [run_method, ServiceClient.get, ServiceClient.post, ServiceClient.put,
        ServiceClient.delete, NetM.send, NetM.bind, NetM.ofExcept, Bind.bind,
        List.nil_append, List.mem_singleton] at hr
      subst hr
      exact ⟨⟨_, rfl⟩, Or.inl rfl⟩
  | userauth_login_user cred =>
      intro r hr
      rcases hcred : resolve_login_auth cred with e | auth_obj
      · simp [run_method, ServiceClient.get, ServiceClient.post, ServiceClient.put,
        ServiceClient.delete, NetM.send, NetM.bind, NetM.ofExcept, Bind.bind,
        List.nil_append, List.mem_singleton, hcred] at hr
      · simp only [run_method, ServiceClient.get, ServiceClient.post, ServiceClient.put,
        ServiceClient.delete, NetM.send, NetM.bind, NetM.ofExcept, Bind.bind,
        List.nil_append, List.mem_singleton, hcred] at hr
        subst hr
        exact ⟨⟨_, rfl⟩, Or.inr ⟨cred, rfl⟩⟩
  | userauth_validate_token tok =>
      intro r hr
      rcases htok : normalise_token_payload tok with e | payload
      · simp [run_method, ServiceClient.get, ServiceClient.post, ServiceClient.put,
        ServiceClient.delete, NetM.send, NetM.bind, NetM.ofExcept, Bind.bind,
        List.nil_append, List.mem_singleton, htok] at hr
      · simp only [run_method, ServiceClient.get, ServiceClient.post, ServiceClient.put,
        ServiceClient.delete, NetM.send, NetM.bind, NetM.ofExcept, Bind.bind,
        List.nil_append, List.mem_singleton, htok] at hr
        subst hr
        exact ⟨⟨_, rfl⟩, Or.inl rfl⟩
  | userauth_get_user i =>
      intro r hr
      simp only [run_method, ServiceClient.get, ServiceClient.post, ServiceClient.put,
        ServiceClient.delete, NetM.send, NetM.bind, NetM.ofExcept, Bind.bind,
        List.nil_append, List.mem_singleton] at hr
      subst hr
      exact ⟨⟨_, rfl⟩, Or.inl rfl⟩
  | userauth_make_admin i =>
      intro r hr
      simp only [run_method, ServiceClient.get, ServiceClient.post, ServiceClient.put,
        ServiceClient.delete, NetM.send, NetM.bind, NetM.ofExcept, Bind.bind,
        List.nil_append, List.mem_singleton] at hr
      subst hr
      exact ⟨⟨_, rfl⟩, Or.inl rfl⟩
  | userauth_get_all_non_staff tok =>
      intro r hr
      rcases htok : normalise_token_payload tok with e | payload
      · simp [run_method, ServiceClient.get, ServiceClient.post, ServiceClient.put,
        ServiceClient.delete, NetM.send, NetM.bind, NetM.ofExcept, Bind.bind,
        List.nil_append, List.mem_singleton, htok] at hr
      · simp only [run_method, ServiceClient.get, ServiceClient.post, ServiceClient.put,
        ServiceClient.delete, NetM.send, NetM.bind, NetM.ofExcept, Bind.bind,
        List.nil_append, List.mem_singleton, htok] at hr
        subst hr
        exact ⟨⟨_, rfl⟩, Or.inl rfl⟩
  | userauth_change_account_status tok a b =>
      intro r hr
      rcases htok : normalise_token_payload tok with e | payload
      · simp [run_method, ServiceClient.get, ServiceClient.post, ServiceClient.put,
        ServiceClient.delete, NetM.send, NetM.bind, NetM.ofExcept, Bind.bind,
        List.nil_append, List.mem_singleton, htok] at hr
      · simp only [run_method, ServiceClient.get, ServiceClient.post, ServiceClient.put,
        ServiceClient.delete, NetM.send, NetM.bind, NetM.ofExcept, Bind.bind,
        List.nil_append, List.mem_singleton, htok] at hr
        subst hr
        exact ⟨⟨_, rfl⟩, Or.inl rfl⟩

/-- A token of a rejected runtime type makes every token-forwarding facade
method fail with the `TypeError` of line 57 before any request is sent. -/
lemma run_method_bad_token {tok : JVal} (h : tok.is_str_or_dict = false)
    (R : Type) (c : ServiceClient) (t : Request → R) (call : FacadeCall)
    (hc : token_arg call = some tok) :
    run_method c call t [] =
      (.error (.typeError "token must be a str or dict with token information"), []) := by
  cases call <;> simp [token_arg] at hc <;>
    simp [run_method, NetM.bind, NetM.ofExcept, Bind.bind, hc,
      normalise_token_payload_bad h]

/-- No facade's hardcoded default base URL is empty. -/
lemma default_url_ne_empty (k : FacadeKind) : default_url k ≠ "" := by
  cases k <;> decide

/-- The resolved service URL is empty exactly when the explicit base URL is
absent or empty and the environment variable is set to the empty string. -/
lemma resolve_service_url_eq_empty {b : Option String} {env : String → Option String}
    {var dflt : String} (hd : dflt ≠ "") :
    resolve_service_url b env var dflt = "" ↔
      ((b = none ∨ b = some "") ∧ env var = some "") := by
  cases b with
  | none =>
      simp only [resolve_service_url, py_getenv]
      cases henv : env var with
      | none => simp [henv, hd]
      | some s => simp [henv]
  | some s =>
      by_cases hs : s = ""
      · subst hs
        simp only [resolve_service_url, py_getenv, if_pos rfl]
        cases henv : env var with
        | none => simp [henv, hd]
        | some v => simp [henv]
      · simp [resolve_service_url, hs]

/-- `ParkingSlotService` defines no `health_check` method. -/
lemma parkingSlot_no_health_check :
    ¬ ∃ call : FacadeCall, facade_of call = FacadeKind.parkingSlot ∧
        method_name call = "health_check" := by
  rintro ⟨call, hf, hn⟩
  cases call <;> simp [facade_of, method_name] at hf hn

end InternalServices

namespace InternalServices

/-- C1: Token payload normalization — a string `s` becomes the mapping
`token ↦ s`; a mapping containing the key `token` is reduced to just its
`token` entry; a mapping without the key `token` is returned unchanged by
value; any other runtime type raises the spec's `InvalidArgument` error
(`TypeError`), and every token-forwarding facade method then fails with that
error before any request reaches the transport. -/
theorem C1_token_payload_normalisation :
    (∀ s : String, normalise_token_payload (.jStr s) = .ok (.jObj [("token", .jStr s)])) ∧
    (∀ (fields : List (String × JVal)) (v : JVal), fields.lookup "token" = some v →
      normalise_token_payload (.jObj fields) = .ok (.jObj [("token", v)])) ∧
    (∀ fields : List (String × JVal), fields.lookup "token" = none →
      normalise_token_payload (.jObj fields) = .ok (.jObj fields)) ∧
    (∀ tok : JVal, tok.is_str_or_dict = false →
      normalise_token_payload tok =
        .error (.typeError "token must be a str or dict with token information") ∧
      (PyError.typeError "token must be a str or dict with token information").isInvalidArgument
        = true ∧
      ∀ (R : Type) (c : ServiceClient) (t : Request → R) (call : FacadeCall),
        token_arg call = some tok →
        run_method c call t [] =
          (.error (.typeError "token must be a str or dict with token information"), [])) := by
  refine ⟨fun s => rfl, ?_, ?_, ?_⟩
  · intro fields v h
    simp [normalise_token_payload, h]
  · intro fields h
    simp [normalise_token_payload, h]
  · intro tok h
    exact ⟨normalise_token_payload_bad h, by decide,
      fun R c t call hc => run_method_bad_token h R c t call hc⟩

/-- Witness for C1 at concrete inputs. -/
theorem C1_token_payload_normalisation_witness :
    normalise_token_payload (.jStr "tok123") = .ok (.jObj [("token", .jStr "tok123")]) ∧
    normalise_token_payload (.jObj [("user", .jStr "u"), ("token", .jStr "v")]) =
      .ok (.jObj [("token", .jStr "v")]) ∧
    normalise_token_payload (.jObj [("user", .jStr "u")]) = .ok (.jObj [("user", .jStr "u")]) ∧
    normalise_token_payload (.jNum 7) =
      .error (.typeError "token must be a str or dict with token information") ∧
    run_method ⟨"http://x", 30⟩ (.userauth_validate_token (.jNum 7)) (fun _ => ()) [] =
      (.error (.typeError "token must be a str or dict with token information"), []) :=
  ⟨C1_token_payload_normalisation.1 "tok123",
   C1_token_payload_normalisation.2.1 [("user", .jStr "u"), ("token", .jStr "v")] (.jStr "v") rfl,
   C1_token_payload_normalisation.2.2.1 [("user", .jStr "u")] rfl,
   (C1_token_payload_normalisation.2.2.2 (.jNum 7) rfl).1,
   (C1_token_payload_normalisation.2.2.2 (.jNum 7) rfl).2.2 Unit ⟨"http://x", 30⟩
     (fun _ => ()) (.userauth_validate_token (.jNum 7)) rfl⟩

/-- C3: Every facade method, on any input, either fails with a validation
error of the spec's `InvalidArgument` class with no request sent at all, or
hands exactly one request to the transport and returns its raw response
unchanged — no partial request is ever sent. -/
theorem C3_fail_fast_single_request (R : Type) (c : ServiceClient) (t : Request → R)
    (call : FacadeCall) :
    (∃ e, run_method c call t [] = (.error e, []) ∧ e.isInvalidArgument = true) ∨
    (∃ r, run_method c call t [] = (.ok (t r), [r])) :=
  run_method_outcome R c t call

/-- C4: `_normalise` is an idempotent pure function ensuring a leading
separator: `normalise (normalise p) = normalise p` for every path string,
and `normalise "health" = normalise "/health" = "/health"`. -/
theorem C4_normalise_idempotent :
    (∀ p : String,
      ServiceClient.normalise (ServiceClient.normalise p) = ServiceClient.normalise p) ∧
    ServiceClient.normalise "health" = "/health" ∧
    ServiceClient.normalise "/health" = "/health" := by
  refine ⟨?_, rfl, rfl⟩
  intro p
  by_cases h : py_starts_with p "/" = true
  · simp [ServiceClient.normalise, h]
  · have h2 : py_starts_with ("/" ++ p) "/" = true :=
      py_starts_with_slash_append p (by decide)
    simp [ServiceClient.normalise, h, h2]

end InternalServices

namespace InternalServices

/-- Counterexample to C2's clause "facade construction fails only on an
explicitly-passed empty string": constructing a facade with no explicit base
URL at all, while the environment variable is set to the empty string, fails
— and `none` is not an explicitly-passed empty string. (Conversely, an
explicitly-passed empty string with no environment override does not fail;
see the amended theorem.) -/
theorem C2_counterexample :
    ¬ (∀ (k : FacadeKind) (b : Option String) (env : String → Option String),
        (∃ e, facade_init k b env = .error e) → b = some "") := by
  intro h
  have h2 := h .adminManagement none (fun _ => some "")
    ⟨.valueError "base_url is required", rfl⟩
  cases h2

/-- C2 (amended): constructing any facade with an empty explicit base URL and
no environment override succeeds with the hardcoded default URL; construction
with no explicit base URL and no environment override also succeeds (never
fails on missing configuration); and construction fails exactly when the
explicit base URL is absent or empty and the facade's environment variable is
set to the empty string — an explicitly-passed empty string alone never makes
it fail. -/
theorem C2_facade_construction_amended :
    (∀ k : FacadeKind, facade_init k (some "") (fun _ => none) = .ok ⟨default_url k, 30⟩) ∧
    (∀ k : FacadeKind, facade_init k none (fun _ => none) = .ok ⟨default_url k, 30⟩) ∧
    (∀ (k : FacadeKind) (b : Option String) (env : String → Option String) (e : PyError),
      facade_init k b env = .error e ↔
        (e = .valueError "base_url is required" ∧ (b = none ∨ b = some "") ∧
         env (env_var_name k) = some "")) := by
  refine ⟨fun k => by cases k <;> rfl, fun k => by cases k <;> rfl, ?_⟩
  intro k b env e
  constructor
  · intro h
    unfold facade_init ServiceClient.init at h
    split at h
    case isTrue hres =>
      have hc := (resolve_service_url_eq_empty (default_url_ne_empty k)).mp hres
      simp only [Except.error.injEq] at h
      exact ⟨h.symm, hc⟩
    case isFalse => cases h
  · rintro ⟨he, hb, henv⟩
    subst he
    have hres : resolve_service_url b env (env_var_name k) (default_url k) = "" :=
      (resolve_service_url_eq_empty (default_url_ne_empty k)).mpr ⟨hb, henv⟩
    simp [facade_init, ServiceClient.init, hres]

/-- Witness for the amended C2 at concrete inputs. -/
theorem C2_facade_construction_amended_witness :
    facade_init .parkingSlot (some "") (fun _ => none) =
      .ok ⟨"http://parking-slot-service:8000", 30⟩ ∧
    facade_init .adminManagement none (fun _ => none) =
      .ok ⟨"http://admin-management-service:8000", 30⟩ ∧
    facade_init .adminManagement none (fun _ => some "") =
      .error (.valueError "base_url is required") :=
  ⟨C2_facade_construction_amended.1 .parkingSlot,
   C2_facade_construction_amended.2.1 .adminManagement,
   (C2_facade_construction_amended.2.2 .adminManagement none (fun _ => some "")
      (.valueError "base_url is required")).mpr ⟨rfl, Or.inl rfl, rfl⟩⟩

end InternalServices

namespace InternalServices

/-- C5: `ParkingSlotService(base_url="http://x").create_parking_slot({"spot":
"A1"}, "tok123")` issues exactly one `POST http://x/parking_slots` whose JSON
body is the envelope `payload ↦ {spot: A1}, authorization ↦ {token: tok123}`;
in general the envelope field is named `payload` for create and update and
`body` for assign. -/
theorem C5_create_parking_slot_request :
    facade_init .parkingSlot (some "http://x") (fun _ => none) = .ok ⟨"http://x", 30⟩ ∧
    (∀ (R : Type) (t : Request → R),
      run_method ⟨"http://x", 30⟩
        (.parking_create_parking_slot (.jObj [("spot", .jStr "A1")]) (.jStr "tok123")) t [] =
        (.ok (t { verb := .POST, url := "http://x/parking_slots", params := none,
                  jsonBody := some (.jObj
                    [("payload", .jObj [("spot", .jStr "A1")]),
                     ("authorization", .jObj [("token", .jStr "tok123")])]),
                  auth := none }),
         [{ verb := .POST, url := "http://x/parking_slots", params := none,
            jsonBody := some (.jObj
              [("payload", .jObj [("spot", .jStr "A1")]),
               ("authorization", .jObj [("token", .jStr "tok123")])]),
            auth := none }])) ∧
    (∀ (R : Type) (c : ServiceClient) (t : Request → R) (slot_data tok payload : JVal),
      normalise_token_payload tok = .ok payload →
      run_method c (.parking_create_parking_slot slot_data tok) t [] =
        (.ok (t { verb := .POST, url := c.base_url ++ "/parking_slots", params := none,
                  jsonBody := some (.jObj [("payload", slot_data), ("authorization", payload)]),
                  auth := none }),
         [{ verb := .POST, url := c.base_url ++ "/parking_slots", params := none,
            jsonBody := some (.jObj [("payload", slot_data), ("authorization", payload)]),
            auth := none }])) ∧
    (∀ (R : Type) (c : ServiceClient) (t : Request → R) (slot_id : String)
        (updates tok payload : JVal),
      normalise_token_payload tok = .ok payload →
      run_method c (.parking_update_parking_slot slot_id updates tok) t [] =
        (.ok (t { verb := .PUT, url := c.base_url ++ ("/parking_slots/" ++ slot_id),
                  params := none,
                  jsonBody := some (.jObj [("payload", updates), ("authorization", payload)]),
                  auth := none }),
         [{ verb := .PUT, url := c.base_url ++ ("/parking_slots/" ++ slot_id),
            params := none,
            jsonBody := some (.jObj [("payload", updates), ("authorization", payload)]),
            auth := none }])) ∧
    (∀ (R : Type) (c : ServiceClient) (t : Request → R) (slot_id : String)
        (assignment tok payload : JVal),
      normalise_token_payload tok = .ok payload →
      run_method c (.parking_assign_parking_slot slot_id assignment tok) t [] =
        (.ok (t { verb := .POST,
                  url := c.base_url ++ ("/parking_slots/" ++ slot_id ++ "/assign"),
                  params := none,
                  jsonBody := some (.jObj [("body", assignment), ("authorization", payload)]),
                  auth := none }),
         [{ verb := .POST,
            url := c.base_url ++ ("/parking_slots/" ++ slot_id ++ "/assign"),
            params := none,
            jsonBody := some (.jObj [("body", assignment), ("authorization", payload)]),
            auth := none }])) := by
  refine ⟨rfl, fun R t => rfl, ?_, ?_, ?_⟩
  · intro R c t slot_data tok payload h
    simp only [run_method, NetM.bind, NetM.ofExcept, Bind.bind, h, ServiceClient.post,
      NetM.send, List.nil_append]
    rfl
  · intro R c t slot_id updates tok payload h
    have hn : ServiceClient.normalise ("/parking_slots/" ++ slot_id) =
        "/parking_slots/" ++ slot_id :=
      normalise_slash_append "/parking_slots/" slot_id (by decide)
    simp only [run_method, NetM.bind, NetM.ofExcept, Bind.bind, h, ServiceClient.put,
      NetM.send, List.nil_append, hn]
  · intro R c t slot_id assignment tok payload h
    have h1 : py_starts_with ("/parking_slots/" ++ slot_id) "/" = true :=
      py_starts_with_slash_append slot_id (by decide)
    have hn : ServiceClient.normalise ("/parking_slots/" ++ slot_id ++ "/assign") =
        "/parking_slots/" ++ slot_id ++ "/assign" :=
      normalise_slash_append ("/parking_slots/" ++ slot_id) "/assign" h1
    simp only [run_method, NetM.bind, NetM.ofExcept, Bind.bind, h, ServiceClient.post,
      NetM.send, List.nil_append, hn]

/-- Witness for C5 at a concrete token. -/
theorem C5_create_parking_slot_request_witness :
    run_method ⟨"http://x", 30⟩
      (.parking_update_parking_slot "42" (.jObj []) (.jStr "k")) (fun _ => ()) [] =
      (.ok (), [{ verb := .PUT, url := "http://x" ++ ("/parking_slots/" ++ "42"),
                  params := none,
                  jsonBody := some (.jObj [("payload", .jObj []),
                                           ("authorization", .jObj [("token", .jStr "k")])]),
                  auth := none }]) ∧
    run_method ⟨"http://x", 30⟩
      (.parking_assign_parking_slot "42" (.jObj []) (.jStr "k")) (fun _ => ()) [] =
      (.ok (), [{ verb := .POST, url := "http://x" ++ ("/parking_slots/" ++ "42" ++ "/assign"),
                  params := none,
                  jsonBody := some (.jObj [("body", .jObj []),
                                           ("authorization", .jObj [("token", .jStr "k")])]),
                  auth := none }]) :=
  ⟨C5_create_parking_slot_request.2.2.2.1 Unit ⟨"http://x", 30⟩ (fun _ => ()) "42"
     (.jObj []) (.jStr "k") (.jObj [("token", .jStr "k")]) rfl,
   C5_create_parking_slot_request.2.2.2.2 Unit ⟨"http://x", 30⟩ (fun _ => ()) "42"
     (.jObj []) (.jStr "k") (.jObj [("token", .jStr "k")]) rfl⟩

end InternalServices

namespace InternalServices

/-- C6: `login_user({"email": "a@b.com", "password": "p"})` issues exactly one
`POST /login` carrying basic-auth credentials `a@b.com`/`p` and no JSON body;
and `login_user` is the only facade method attaching transport-level auth
credentials to its request. -/
theorem C6_login_user_basic_auth :
    (∀ (R : Type) (c : ServiceClient) (t : Request → R),
      run_method c
        (.userauth_login_user (.dict [("email", "a@b.com"), ("password", "p")])) t [] =
        (.ok (t { verb := .POST, url := c.base_url ++ "/login", params := none,
                  jsonBody := none, auth := some (.basic "a@b.com" "p") }),
         [{ verb := .POST, url := c.base_url ++ "/login", params := none,
            jsonBody := none, auth := some (.basic "a@b.com" "p") }])) ∧
    (∀ (R : Type) (c : ServiceClient) (t : Request → R) (call : FacadeCall) (r : Request),
      r ∈ (run_method c call t []).2 → r.auth.isSome = true →
      ∃ cred, call = .userauth_login_user cred) := by
  constructor
  · intro R c t
    rfl
  · intro R c t call r hr hauth
    rcases (run_method_sent R c t call r hr).2 with hnone | hlogin
    · rw [hnone] at hauth
      cases hauth
    · exact hlogin

/-- Witness for C6: the concrete login call is indeed a `login_user` call. -/
theorem C6_login_user_basic_auth_witness :
    ∃ cred, FacadeCall.userauth_login_user (.dict [("email", "a@b.com"), ("password", "p")]) =
      FacadeCall.userauth_login_user cred :=
  C6_login_user_basic_auth.2 Unit ⟨"http://x", 30⟩ (fun _ => ())
    (.userauth_login_user (.dict [("email", "a@b.com"), ("password", "p")]))
    { verb := .POST, url := "http://x" ++ "/login", params := none, jsonBody := none,
      auth := some (.basic "a@b.com" "p") }
    (List.mem_singleton.mpr rfl) rfl

/-- C7: `login_user` with a credentials mapping lacking `password` (and, more
generally, with a falsy resolved email/username or password) raises the
`InvalidArgument` `ValueError` with no network call; an unsupported
credentials type raises the `InvalidArgument` `TypeError`, also before any
network call. -/
theorem C7_login_user_invalid_credentials :
    (∀ (fields : List (String × String)), fields.lookup "password" = none →
      ∀ (R : Type) (c : ServiceClient) (t : Request → R),
        run_method c (.userauth_login_user (.dict fields)) t [] =
          (.error (.valueError "Credentials must include email/username and password"), [])) ∧
    (∀ (fields : List (String × String)),
      (py_truthy (py_or_str (fields.lookup "email") (fields.lookup "username")) = false ∨
       py_truthy (fields.lookup "password") = false) →
      ∀ (R : Type) (c : ServiceClient) (t : Request → R),
        run_method c (.userauth_login_user (.dict fields)) t [] =
          (.error (.valueError "Credentials must include email/username and password"), [])) ∧
    (∀ (R : Type) (c : ServiceClient) (t : Request → R),
      run_method c (.userauth_login_user .other) t [] =
        (.error (.typeError "Unsupported credentials type for login_user"), [])) ∧
    (PyError.valueError
      "Credentials must include email/username and password").isInvalidArgument = true ∧
    (PyError.typeError "Unsupported credentials type for login_user").isInvalidArgument
      = true := by
  have key : ∀ (fields : List (String × String)),
      (py_truthy (py_or_str (fields.lookup "email") (fields.lookup "username")) = false ∨
       py_truthy (fields.lookup "password") = false) →
      ∀ (R : Type) (c : ServiceClient) (t : Request → R),
        run_method c (.userauth_login_user (.dict fields)) t [] =
          (.error (.valueError "Credentials must include email/username and password"), []) := by
    intro fields hf R c t
    have hand : (py_truthy (py_or_str (fields.lookup "email") (fields.lookup "username"))
        && py_truthy (fields.lookup "password")) = false := by
      rcases hf with h | h <;> simp [h]
    simp [run_method, NetM.bind, NetM.ofExcept, Bind.bind,
      resolve_login_auth_dict_error hand]
  refine ⟨?_, key, fun R c t => rfl, by decide, by decide⟩
  intro fields h
  exact key fields (Or.inr (by simp [h, py_truthy]))

/-- Witness for C7 at concrete inputs. -/
theorem C7_login_user_invalid_credentials_witness :
    run_method ⟨"http://x", 30⟩
      (.userauth_login_user (.dict [("email", "a@b.com")])) (fun _ => ()) [] =
      (.error (.valueError "Credentials must include email/username and password"), []) ∧
    run_method ⟨"http://x", 30⟩
      (.userauth_login_user (.dict [("username", ""), ("password", "p")])) (fun _ => ()) [] =
      (.error (.valueError "Credentials must include email/username and password"), []) :=
  ⟨C7_login_user_invalid_credentials.1 [("email", "a@b.com")] rfl Unit ⟨"http://x", 30⟩
     (fun _ => ()),
   C7_login_user_invalid_credentials.2.1 [("username", ""), ("password", "p")]
     (Or.inl rfl) Unit ⟨"http://x", 30⟩ (fun _ => ())⟩

end InternalServices

namespace InternalServices

/-- C8: `ServiceClient` construction with an empty base URL fails with the
spec's `InvalidConfiguration` error; with any non-empty base URL it succeeds,
storing the trailing-slash-stripped URL; and the stored base URL is immutable
thereafter: every request any facade method ever hands to the transport
through that client targets the base URL fixed at construction. -/
theorem C8_service_client_construction :
    ServiceClient.init "" 30 = .error (.valueError "base_url is required") ∧
    (PyError.valueError "base_url is required").isInvalidConfiguration = true ∧
    (∀ s : String, s ≠ "" → ServiceClient.init s 30 = .ok ⟨rstrip_slash s, 30⟩) ∧
    (∀ (s : String) (c : ServiceClient), ServiceClient.init s 30 = .ok c →
      ∀ (R : Type) (t : Request → R) (call : FacadeCall),
        ∀ r ∈ (run_method c call t []).2, py_starts_with r.url c.base_url = true) := by
  refine ⟨rfl, by decide, ?_, ?_⟩
  · intro s hs
    simp [ServiceClient.init, hs]
  · intro s c hc R t call r hr
    obtain ⟨⟨p, hurl⟩, _⟩ := run_method_sent R c t call r hr
    rw [hurl]
    exact py_starts_with_append c.base_url (ServiceClient.normalise p)

/-- Witness for C8 at concrete inputs. -/
theorem C8_service_client_construction_witness :
    ServiceClient.init "http://x/" 30 = .ok ⟨rstrip_slash "http://x/", 30⟩ ∧
    py_starts_with
      (Request.url { verb := .GET, url := "http://x" ++ "/health", params := none,
                     jsonBody := none, auth := none }) "http://x" = true :=
  ⟨C8_service_client_construction.2.2.1 "http://x/" (by decide),
   C8_service_client_construction.2.2.2 "http://x" ⟨"http://x", 30⟩ rfl Unit (fun _ => ())
     .admin_health_check _ (List.mem_singleton.mpr rfl)⟩

/-- Counterexample to C9's clause that the `GET /health` liveness contract is
shared by all facades: `ParkingSlotService` has no `health_check` method. -/
theorem C9_counterexample :
    ¬ ∃ call : FacadeCall, facade_of call = FacadeKind.parkingSlot ∧
        method_name call = "health_check" :=
  parkingSlot_no_health_check

/-- C9 (amended): every facade except `ParkingSlotService` — the Admin and
UserAuth facades included — exposes a `health_check` method issuing
`GET {base_url}/health`; `ParkingSlotService` alone lacks it, so the liveness
contract is shared by all facades except ParkingSlot. -/
theorem C9_health_check_amended :
    (∀ k : FacadeKind, k ≠ .parkingSlot →
      ∃ call : FacadeCall, facade_of call = k ∧ method_name call = "health_check" ∧
        ∀ (R : Type) (c : ServiceClient) (t : Request → R),
          run_method c call t [] =
            (.ok (t { verb := .GET, url := c.base_url ++ "/health", params := none,
                      jsonBody := none, auth := none }),
             [{ verb := .GET, url := c.base_url ++ "/health", params := none,
                jsonBody := none, auth := none }])) ∧
    ¬ ∃ call : FacadeCall, facade_of call = FacadeKind.parkingSlot ∧
        method_name call = "health_check" := by
  refine ⟨?_, parkingSlot_no_health_check⟩
  intro k hk
  cases k with
  | adminManagement => exact ⟨.admin_health_check, rfl, rfl, fun R c t => rfl⟩
  | alertAndEventProcessing => exact ⟨.alert_health_check, rfl, rfl, fun R c t => rfl⟩
  | deviceCommand => exact ⟨.command_health_check, rfl, rfl, fun R c t => rfl⟩
  | deviceOnboarding => exact ⟨.onboarding_health_check, rfl, rfl, fun R c t => rfl⟩
  | deviceTelemetry => exact ⟨.telemetry_health_check, rfl, rfl, fun R c t => rfl⟩
  | healthMonitoring => exact ⟨.healthmon_health_check, rfl, rfl, fun R c t => rfl⟩
  | notificationMicroservice =>
      exact ⟨.notification_health_check, rfl, rfl, fun R c t => rfl⟩
  | parkingSlot => exact absurd rfl hk
  | userAuthentication => exact ⟨.userauth_health_check, rfl, rfl, fun R c t => rfl⟩

/-- Witness for the amended C9 at a concrete facade. -/
theorem C9_health_check_amended_witness :
    ∃ call : FacadeCall, facade_of call = FacadeKind.userAuthentication ∧
      method_name call = "health_check" ∧
      ∀ (R : Type) (c : ServiceClient) (t : Request → R),
        run_method c call t [] =
          (.ok (t { verb := .GET, url := c.base_url ++ "/health", params := none,
                    jsonBody := none, auth := none }),
           [{ verb := .GET, url := c.base_url ++ "/health", params := none,
              jsonBody := none, auth := none }]) :=
  C9_health_check_amended.1 .userAuthentication (by decide)

/-- C10: a base URL consisting only of `/` characters passes the
non-emptiness check (applied before stripping), so `ServiceClient`
construction succeeds and the stored base URL is the empty string. -/
theorem C10_slash_only_base_url :
    (∀ s : String, s ≠ "" → (∀ ch ∈ s.data, ch = '/') →
      ServiceClient.init s 30 = .ok ⟨"", 30⟩) ∧
    ServiceClient.init "/" 30 = .ok ⟨"", 30⟩ := by
  have key : ∀ s : String, s ≠ "" → (∀ ch ∈ s.data, ch = '/') →
      ServiceClient.init s 30 = .ok ⟨"", 30⟩ := by
    intro s hs hall
    have hnil : s.data.reverse.dropWhile (fun c => c = '/') = [] := by
      rw [List.dropWhile_eq_nil_iff]
      intro x hx
      simp [hall x (List.mem_reverse.mp hx)]
    have hr : rstrip_slash s = "" := by
      simp [rstrip_slash, hnil]
    simp [ServiceClient.init, hs, hr]
  exact ⟨key, key "/" (by decide) (by decide)⟩

/-- Witness for C10 at a concrete all-slash base URL. -/
theorem C10_slash_only_base_url_witness :
    ServiceClient.init "//" 30 = .ok ⟨"", 30⟩ :=
  C10_slash_only_base_url.1 "//" (by decide) (by decide)

end InternalServices
